import Mathlib

/-!
Formal model of the form-validation component (class FormValidator) of
src/script.js, with proofs and refutations of the specification claims
about it.

Field values are Lean String values (the terms checkbox is a Bool).  The
DOM state the validator touches is the structure FormState: the seven
field values, each field's visual css class (error / success / none) and
the textContent of its paired error element, and the visibility of the
form view and of the success view.

A central point of the model: class FormValidator defines a method named
showSuccess twice, once as showSuccess(fieldName) (lines 576-588) and
once as showSuccess() with no parameter (lines 612-624).  Under
JavaScript class semantics the later definition replaces the earlier on
the prototype, so every call this.showSuccess('...') made by the
per-field validators invokes the zero-argument form-level method: it
hides the form, shows the success view and schedules a reset; it does
not touch the field's css class or its error-message slot.  The model
embeds this actual behavior (FormState.showSuccess); the shadowed
field-level body is embedded separately as FormState.showSuccessField
for reference but is never invoked, exactly as in the source.
-/

/-- JavaScript whitespace as matched by the regex class backslash-s,
restricted to the ASCII range (space, tab, newline, carriage return,
vertical tab, form feed). -/
def isJsWhitespace (c : Char) : Bool :=
  c == ' ' || c == '\t' || c == '\n' || c == '\r' || c == '\x0b' || c == '\x0c'

/-- Model of String.prototype.trim: remove whitespace from both ends. -/
def jsTrim (s : String) : String :=
  String.mk (((s.data.dropWhile isJsWhitespace).reverse.dropWhile isJsWhitespace).reverse)

/-- Test of the fullName regex of line 407: one or more characters, each an
ASCII letter or whitespace. -/
def alphaSpaceTest (s : String) : Bool :=
  !s.data.isEmpty && s.data.all (fun c => c.isAlpha || isJsWhitespace c)

/-- Test of the email regex of line 425: a nonempty run of characters that
are neither whitespace nor the at sign, then the at sign, then another
such run, then a literal dot, then another such run.  Implemented by
splitting at the first at sign: the string matches exactly when it has
one at sign, no whitespace, a nonempty local part, and after the at sign
a dot that has at least one character before it and one after it. -/
def emailRegexTest (s : String) : Bool :=
  let l := s.data
  let a := l.takeWhile (fun c => !(c == '@'))
  match l.dropWhile (fun c => !(c == '@')) with
  | '@' :: b =>
    !a.isEmpty
    && a.all (fun c => !(isJsWhitespace c))
    && b.all (fun c => !(c == '@') && !(isJsWhitespace c))
    && (b.drop 1).dropLast.contains '.'
  | _ => false

/-- Line 449: the regex [A-Z]. -/
def hasUpperCase (s : String) : Bool := s.data.any (fun c => 'A' ≤ c && c ≤ 'Z')

/-- Line 450: the regex [a-z]. -/
def hasLowerCase (s : String) : Bool := s.data.any (fun c => 'a' ≤ c && c ≤ 'z')

/-- Line 451: the regex backslash-d, that is [0-9]. -/
def hasNumbers (s : String) : Bool := s.data.any (fun c => '0' ≤ c && c ≤ '9')

/-- The special characters of the regex on line 452. -/
def specialChars : List Char := "!@#$%^&*(),.?\":\x7b\x7d|<>".data

/-- Line 452: at least one of the listed special characters. -/
def hasSpecialChar (s : String) : Bool := s.data.any (fun c => specialChars.contains c)

/-- Numeric value of a decimal digit character. -/
def decDigitVal (c : Char) : Nat := c.toNat - '0'.toNat

/-- Hexadecimal digit test for the 0x branch of parseInt. -/
def isHexDigit (c : Char) : Bool :=
  c.isDigit || ('a' ≤ c && c ≤ 'f') || ('A' ≤ c && c ≤ 'F')

/-- Numeric value of a hexadecimal digit character. -/
def hexDigitVal (c : Char) : Nat :=
  if c.isDigit then c.toNat - '0'.toNat
  else if 'a' ≤ c ∧ c ≤ 'f' then c.toNat - 'a'.toNat + 10
  else c.toNat - 'A'.toNat + 10

/-- Model of the JavaScript parseInt applied with no radix argument (line
497): skip leading whitespace, read an optional sign, then either a 0x /
0X prefix followed by hexadecimal digits or a run of decimal digits;
parsing stops at the first character that is not a digit, and the result
is NaN (here: none) when no digit was read. -/
def jsParseInt (s : String) : Option Int :=
  let l := s.data.dropWhile isJsWhitespace
  let sgn : Int := match l with | '-' :: _ => -1 | _ => 1
  let l1 : List Char := match l with | '-' :: r => r | '+' :: r => r | _ => l
  let hex : Bool := match l1 with
    | '0' :: c :: _ => c == 'x' || c == 'X'
    | _ => false
  if hex then
    let ds := (l1.drop 2).takeWhile isHexDigit
    if ds.isEmpty then none
    else some (sgn * Int.ofNat (ds.foldl (fun a c => a * 16 + hexDigitVal c) 0))
  else
    let ds := l1.takeWhile Char.isDigit
    if ds.isEmpty then none
    else some (sgn * Int.ofNat (ds.foldl (fun a c => a * 10 + decDigitVal c) 0))

/-- Visual css state of a field element: no class, class error, or class
success (showError adds error and removes success, showSuccessField
would add success and remove error, clearError removes both). -/
inductive Visual where
  | neutral
  | error
  | success
deriving DecidableEq

/-- Display state of one field: its css class and the textContent of its
paired error element. -/
structure FieldDisplay where
  vis : Visual
  msg : String
deriving DecidableEq

/-- The closed set of field names of the registration form. -/
inductive FieldName where
  | fullName
  | email
  | password
  | confirmPassword
  | age
  | phone
  | terms
deriving DecidableEq

/-- The DOM state touched by FormValidator: the seven field values, the
seven field display states, and the visibility of the form view and the
success view. -/
structure FormState where
  fullNameV : String
  emailV : String
  passwordV : String
  confirmPasswordV : String
  ageV : String
  phoneV : String
  termsV : Bool
  fullNameD : FieldDisplay
  emailD : FieldDisplay
  passwordD : FieldDisplay
  confirmPasswordD : FieldDisplay
  ageD : FieldDisplay
  phoneD : FieldDisplay
  termsD : FieldDisplay
  formVisible : Bool
  successVisible : Bool
deriving DecidableEq

/-- Read the display state of a named field. -/
def FormState.dispOf (s : FormState) : FieldName → FieldDisplay
  | FieldName.fullName => s.fullNameD
  | FieldName.email => s.emailD
  | FieldName.password => s.passwordD
  | FieldName.confirmPassword => s.confirmPasswordD
  | FieldName.age => s.ageD
  | FieldName.phone => s.phoneD
  | FieldName.terms => s.termsD

/-- Replace the display state of a named field. -/
def FormState.setDisp (s : FormState) : FieldName → FieldDisplay → FormState
  | FieldName.fullName, d => { s with fullNameD := d }
  | FieldName.email, d => { s with emailD := d }
  | FieldName.password, d => { s with passwordD := d }
  | FieldName.confirmPassword, d => { s with confirmPasswordD := d }
  | FieldName.age, d => { s with ageD := d }
  | FieldName.phone, d => { s with phoneD := d }
  | FieldName.terms, d => { s with termsD := d }

/-- showError(fieldName, message), lines 562-574: add class error, remove
class success, set the error element's text to the message. -/
def FormState.showError (s : FormState) (n : FieldName) (m : String) : FormState :=
  s.setDisp n ⟨Visual.error, m⟩

/-- The live showSuccess, lines 612-624 (it shadows the showSuccess of
lines 576-588): hide the form, show the success view, scroll, and
schedule resetForm after five seconds.  It does not touch any field
display. -/
def FormState.showSuccess (s : FormState) : FormState :=
  { s with formVisible := false, successVisible := true }

/-- The shadowed field-level showSuccess(fieldName) of lines 576-588,
embedded for reference: it is never invoked at runtime because the
zero-argument showSuccess of lines 612-624 replaces it. -/
def FormState.showSuccessField (s : FormState) (n : FieldName) : FormState :=
  s.setDisp n ⟨Visual.success, ""⟩

/-- clearError(fieldName), lines 590-601: remove both classes and empty
the error element's text. -/
def FormState.clearError (s : FormState) (n : FieldName) : FormState :=
  s.setDisp n ⟨Visual.neutral, ""⟩

/-- validateFullName, lines 393-414. -/
def FormState.validateFullName (s : FormState) : Bool × FormState :=
  let value := jsTrim s.fullNameV
  if value = "" then (false, s.showError FieldName.fullName "Full name is required")
  else if value.length < 2 then
    (false, s.showError FieldName.fullName "Full name must be at least 2 characters")
  else if alphaSpaceTest value = false then
    (false, s.showError FieldName.fullName "Full name can only contain letters and spaces")
  else (true, s.showSuccess)

/-- validateEmail, lines 416-433. -/
def FormState.validateEmail (s : FormState) : Bool × FormState :=
  let value := jsTrim s.emailV
  if value = "" then (false, s.showError FieldName.email "Email address is required")
  else if emailRegexTest value = false then
    (false, s.showError FieldName.email "Please enter a valid email address")
  else (true, s.showSuccess)

/-- validatePassword, lines 435-476: the value is read untrimmed. -/
def FormState.validatePassword (s : FormState) : Bool × FormState :=
  let value := s.passwordV
  if value = "" then (false, s.showError FieldName.password "Password is required")
  else if value.length < 8 then
    (false, s.showError FieldName.password "Password must be at least 8 characters long")
  else if hasUpperCase value = false then
    (false, s.showError FieldName.password "Password must contain at least one uppercase letter")
  else if hasLowerCase value = false then
    (false, s.showError FieldName.password "Password must contain at least one lowercase letter")
  else if hasNumbers value = false then
    (false, s.showError FieldName.password "Password must contain at least one number")
  else if hasSpecialChar value = false then
    (false, s.showError FieldName.password "Password must contain at least one special character")
  else (true, s.showSuccess)

/-- validateConfirmPassword, lines 478-494: both values are read
untrimmed. -/
def FormState.validateConfirmPassword (s : FormState) : Bool × FormState :=
  let value := s.confirmPasswordV
  let passwordValue := s.passwordV
  if value = "" then
    (false, s.showError FieldName.confirmPassword "Please confirm your password")
  else if value ≠ passwordValue then
    (false, s.showError FieldName.confirmPassword "Passwords do not match")
  else (true, s.showSuccess)

/-- validateAge, lines 496-522: parseInt of the raw value; the required
check tests the raw text for emptiness. -/
def FormState.validateAge (s : FormState) : Bool × FormState :=
  let value := jsParseInt s.ageV
  if s.ageV = "" then (false, s.showError FieldName.age "Age is required")
  else
    match value with
    | none => (false, s.showError FieldName.age "Please enter a valid age")
    | some v =>
      if v < 13 then (false, s.showError FieldName.age "You must be at least 13 years old")
      else if 120 < v then (false, s.showError FieldName.age "Please enter a valid age")
      else (true, s.showSuccess)

/-- validatePhone, lines 524-548: trims, treats the empty value as valid
via clearError, otherwise strips every non-digit character and checks
the digit count. -/
def FormState.validatePhone (s : FormState) : Bool × FormState :=
  let value := jsTrim s.phoneV
  if value = "" then (true, s.clearError FieldName.phone)
  else
    let digitsOnly := value.data.filter Char.isDigit
    if digitsOnly.length < 10 then
      (false, s.showError FieldName.phone "Phone number must have at least 10 digits")
    else if 15 < digitsOnly.length then
      (false, s.showError FieldName.phone "Phone number is too long")
    else (true, s.showSuccess)

/-- validateTerms, lines 550-560. -/
def FormState.validateTerms (s : FormState) : Bool × FormState :=
  if s.termsV = false then
    (false, s.showError FieldName.terms "You must agree to the Terms and Conditions")
  else (true, s.clearError FieldName.terms)

/-- Dispatch the per-field validator for a field name (the spec calls the
family validateField(name)). -/
def FormState.validateField (s : FormState) : FieldName → Bool × FormState
  | FieldName.fullName => s.validateFullName
  | FieldName.email => s.validateEmail
  | FieldName.password => s.validatePassword
  | FieldName.confirmPassword => s.validateConfirmPassword
  | FieldName.age => s.validateAge
  | FieldName.phone => s.validatePhone
  | FieldName.terms => s.validateTerms

/-- validateAllFields, lines 379-391: run all seven validators in order,
collect the booleans, and return their conjunction. -/
def FormState.validateAllFields (s : FormState) : Bool × FormState :=
  let p1 := s.validateFullName
  let p2 := p1.2.validateEmail
  let p3 := p2.2.validatePassword
  let p4 := p3.2.validateConfirmPassword
  let p5 := p4.2.validateAge
  let p6 := p5.2.validatePhone
  let p7 := p6.2.validateTerms
  (p1.1 && p2.1 && p3.1 && p4.1 && p5.1 && p6.1 && p7.1, p7.2)

/-- handleSubmit, lines 366-377: prevent the default, validate all
fields, on success call the (form-level) showSuccess; showFormErrors
only scrolls and focuses, so it leaves the modelled state unchanged. -/
def FormState.handleSubmit (s : FormState) : FormState :=
  let p := s.validateAllFields
  if p.1 = true then p.2.showSuccess else p.2

/-- The seven field names in the declaration order of the fields object
(lines 306-314), which is the iteration order of Object.keys on line
631. -/
def allFieldNames : List FieldName :=
  [FieldName.fullName, FieldName.email, FieldName.password, FieldName.confirmPassword,
   FieldName.age, FieldName.phone, FieldName.terms]

/-- resetForm, lines 626-638: form.reset() returns every control to its
default (empty text, unchecked box), clearError runs on every field, the
form view is shown and the success view hidden. -/
def FormState.resetForm (s : FormState) : FormState :=
  let s1 := { s with fullNameV := "", emailV := "", passwordV := "", confirmPasswordV := "",
                     ageV := "", phoneV := "", termsV := false }
  let s2 := allFieldNames.foldl (fun t n => t.clearError n) s1
  { s2 with formVisible := true, successVisible := false }

/-- The initial state of the component: empty values, unchecked box, no
css classes, empty messages, form visible, success view hidden. -/
def initialFormState : FormState :=
  { fullNameV := "", emailV := "", passwordV := "", confirmPasswordV := "",
    ageV := "", phoneV := "", termsV := false,
    fullNameD := ⟨Visual.neutral, ""⟩, emailD := ⟨Visual.neutral, ""⟩,
    passwordD := ⟨Visual.neutral, ""⟩, confirmPasswordD := ⟨Visual.neutral, ""⟩,
    ageD := ⟨Visual.neutral, ""⟩, phoneD := ⟨Visual.neutral, ""⟩,
    termsD := ⟨Visual.neutral, ""⟩,
    formVisible := true, successVisible := false }

/-!
Model of the operations over possibly-missing DOM elements, for the
claims about fault tolerance.  A missing element is none; an operation
that would dereference null returns Except.error "TypeError" (the fault
JavaScript raises when reading a property of null), otherwise Except.ok.
-/

/-- Presence of the two form-level elements this.form and
this.formSuccess (lines 304-305), which the live showSuccess
dereferences without a null guard. -/
structure DomCtx where
  formEl : Option Unit
  formSuccessEl : Option Unit
deriving DecidableEq

/-- One field's pair of possibly-missing elements: the input element
(carrying its css state) and the paired error-display element (carrying
its text). -/
structure OCell where
  el : Option Visual
  err : Option String
deriving DecidableEq

/-- Decide whether an Except value is a success. -/
def exceptIsOk {α : Type} (e : Except String α) : Bool :=
  match e with
  | Except.ok _ => true
  | Except.error _ => false

/-- showError over possibly-missing elements (lines 562-574): both
dereferences are guarded by if, so the operation never faults and
no-ops on each missing element. -/
def showErrorO (m : String) (c : OCell) : Except String OCell :=
  Except.ok { el := c.el.map (fun _ => Visual.error), err := c.err.map (fun _ => m) }

/-- clearError over possibly-missing elements (lines 590-601): both
dereferences are guarded, so it never faults. -/
def clearErrorO (c : OCell) : Except String OCell :=
  Except.ok { el := c.el.map (fun _ => Visual.neutral), err := c.err.map (fun _ => "") }

/-- The live showSuccess (lines 612-624) over possibly-missing elements:
it reads this.form.style and this.formSuccess.style with no null guard,
so it faults when either element is missing. -/
def showSuccessO (d : DomCtx) : Except String Unit :=
  match d.formEl with
  | none => Except.error "TypeError"
  | some _ =>
    match d.formSuccessEl with
    | none => Except.error "TypeError"
    | some _ => Except.ok ()

/-- validateFullName (lines 393-414) over possibly-missing elements: the
read this.fields.fullName.value on line 394 faults when the field
element is missing. -/
def validateFullNameO (fieldEl : Option String) (d : DomCtx) (c : OCell) :
    Except String (Bool × OCell) :=
  match fieldEl with
  | none => Except.error "TypeError"
  | some raw =>
    let value := jsTrim raw
    if value = "" then (showErrorO "Full name is required" c).map (fun c2 => (false, c2))
    else if value.length < 2 then
      (showErrorO "Full name must be at least 2 characters" c).map (fun c2 => (false, c2))
    else if alphaSpaceTest value = false then
      (showErrorO "Full name can only contain letters and spaces" c).map (fun c2 => (false, c2))
    else (showSuccessO d).map (fun _ => (true, c))

/-- validateEmail (lines 416-433) over possibly-missing elements. -/
def validateEmailO (fieldEl : Option String) (d : DomCtx) (c : OCell) :
    Except String (Bool × OCell) :=
  match fieldEl with
  | none => Except.error "TypeError"
  | some raw =>
    let value := jsTrim raw
    if value = "" then (showErrorO "Email address is required" c).map (fun c2 => (false, c2))
    else if emailRegexTest value = false then
      (showErrorO "Please enter a valid email address" c).map (fun c2 => (false, c2))
    else (showSuccessO d).map (fun _ => (true, c))

/-- validatePassword (lines 435-476) over possibly-missing elements. -/
def validatePasswordO (fieldEl : Option String) (d : DomCtx) (c : OCell) :
    Except String (Bool × OCell) :=
  match fieldEl with
  | none => Except.error "TypeError"
  | some value =>
    if value = "" then (showErrorO "Password is required" c).map (fun c2 => (false, c2))
    else if value.length < 8 then
      (showErrorO "Password must be at least 8 characters long" c).map (fun c2 => (false, c2))
    else if hasUpperCase value = false then
      (showErrorO "Password must contain at least one uppercase letter" c).map
        (fun c2 => (false, c2))
    else if hasLowerCase value = false then
      (showErrorO "Password must contain at least one lowercase letter" c).map
        (fun c2 => (false, c2))
    else if hasNumbers value = false then
      (showErrorO "Password must contain at least one number" c).map (fun c2 => (false, c2))
    else if hasSpecialChar value = false then
      (showErrorO "Password must contain at least one special character" c).map
        (fun c2 => (false, c2))
    else (showSuccessO d).map (fun _ => (true, c))

/-- validateConfirmPassword (lines 478-494) over possibly-missing
elements: it reads the confirmPassword value on line 479 and the
password value on line 480, faulting at the first missing one. -/
def validateConfirmPasswordO (fieldEl passwordEl : Option String) (d : DomCtx) (c : OCell) :
    Except String (Bool × OCell) :=
  match fieldEl with
  | none => Except.error "TypeError"
  | some value =>
    match passwordEl with
    | none => Except.error "TypeError"
    | some passwordValue =>
      if value = "" then
        (showErrorO "Please confirm your password" c).map (fun c2 => (false, c2))
      else if value ≠ passwordValue then
        (showErrorO "Passwords do not match" c).map (fun c2 => (false, c2))
      else (showSuccessO d).map (fun _ => (true, c))

/-- validateAge (lines 496-522) over possibly-missing elements. -/
def validateAgeO (fieldEl : Option String) (d : DomCtx) (c : OCell) :
    Except String (Bool × OCell) :=
  match fieldEl with
  | none => Except.error "TypeError"
  | some raw =>
    if raw = "" then (showErrorO "Age is required" c).map (fun c2 => (false, c2))
    else
      match jsParseInt raw with
      | none => (showErrorO "Please enter a valid age" c).map (fun c2 => (false, c2))
      | some v =>
        if v < 13 then
          (showErrorO "You must be at least 13 years old" c).map (fun c2 => (false, c2))
        else if 120 < v then
          (showErrorO "Please enter a valid age" c).map (fun c2 => (false, c2))
        else (showSuccessO d).map (fun _ => (true, c))

/-- validatePhone (lines 524-548) over possibly-missing elements. -/
def validatePhoneO (fieldEl : Option String) (d : DomCtx) (c : OCell) :
    Except String (Bool × OCell) :=
  match fieldEl with
  | none => Except.error "TypeError"
  | some raw =>
    let value := jsTrim raw
    if value = "" then (clearErrorO c).map (fun c2 => (true, c2))
    else
      let digitsOnly := value.data.filter Char.isDigit
      if digitsOnly.length < 10 then
        (showErrorO "Phone number must have at least 10 digits" c).map (fun c2 => (false, c2))
      else if 15 < digitsOnly.length then
        (showErrorO "Phone number is too long" c).map (fun c2 => (false, c2))
      else (showSuccessO d).map (fun _ => (true, c))

/-- validateTerms (lines 550-560) over possibly-missing elements: the
read this.fields.terms.checked on line 551 faults when the checkbox
element is missing. -/
def validateTermsO (fieldEl : Option Bool) (c : OCell) :
    Except String (Bool × OCell) :=
  match fieldEl with
  | none => Except.error "TypeError"
  | some isChecked =>
    if isChecked = false then
      (showErrorO "You must agree to the Terms and Conditions" c).map (fun c2 => (false, c2))
    else (clearErrorO c).map (fun c2 => (true, c2))

/-- Presence of each of the seven field input elements. -/
structure OInputs where
  fullNameEl : Option String
  emailEl : Option String
  passwordEl : Option String
  confirmPasswordEl : Option String
  ageEl : Option String
  phoneEl : Option String
  termsEl : Option Bool
deriving DecidableEq

/-- Dispatch the per-field validator over possibly-missing elements. -/
def validateFieldO (n : FieldName) (i : OInputs) (d : DomCtx) (c : OCell) :
    Except String (Bool × OCell) :=
  match n with
  | FieldName.fullName => validateFullNameO i.fullNameEl d c
  | FieldName.email => validateEmailO i.emailEl d c
  | FieldName.password => validatePasswordO i.passwordEl d c
  | FieldName.confirmPassword => validateConfirmPasswordO i.confirmPasswordEl i.passwordEl d c
  | FieldName.age => validateAgeO i.ageEl d c
  | FieldName.phone => validatePhoneO i.phoneEl d c
  | FieldName.terms => validateTermsO i.termsEl c

/-- Whether the elements a field's validator dereferences are all
present: its own input element, and for confirmPassword also the
password input element. -/
def fieldElPresent (n : FieldName) (i : OInputs) : Bool :=
  match n with
  | FieldName.fullName => i.fullNameEl.isSome
  | FieldName.email => i.emailEl.isSome
  | FieldName.password => i.passwordEl.isSome
  | FieldName.confirmPassword => i.confirmPasswordEl.isSome && i.passwordEl.isSome
  | FieldName.age => i.ageEl.isSome
  | FieldName.phone => i.phoneEl.isSome
  | FieldName.terms => i.termsEl.isSome

/-!
Concrete states used by the claim theorems and witnesses.
-/

/-- A form state whose seven values all satisfy their rules. -/
def validState : FormState :=
  { initialFormState with
    fullNameV := "John Doe", emailV := "john@example.com", passwordV := "Abcdef1!",
    confirmPasswordV := "Abcdef1!", ageV := "25", phoneV := "", termsV := true }

/-- The valid-values state with a leftover error message (and error css
class) on the fullName field. -/
def staleValidState : FormState :=
  { validState with fullNameD := ⟨Visual.error, "Full name is required"⟩ }

/-- A state with an invalid fullName, a stale message on the valid email
field, and an invalid phone value. -/
def staleMixedState : FormState :=
  { initialFormState with
    fullNameV := "J", emailV := "john@example.com", passwordV := "Abcdef1!",
    confirmPasswordV := "Abcdef1!", ageV := "25", phoneV := "123", termsV := true,
    emailD := ⟨Visual.error, "stale"⟩ }

/-- A state whose only nonempty value is a valid fullName. -/
def fullNameOnlyState : FormState :=
  { initialFormState with fullNameV := "John" }

/-- The initial state with the given age value. -/
def withAge (a : String) : FormState := { initialFormState with ageV := a }

/-- The initial state with the given phone value. -/
def withPhone (p : String) : FormState := { initialFormState with phoneV := p }

/-- The initial state with the given password value. -/
def withPassword (p : String) : FormState := { initialFormState with passwordV := p }

/-- The initial state with the claim scenario: password Abcdef1! and
confirmPassword Abcdef1. -/
def mismatchState : FormState :=
  { initialFormState with passwordV := "Abcdef1!", confirmPasswordV := "Abcdef1" }

/-- A password of exactly eight characters only because of its leading
and trailing spaces; its trim has six characters. -/
def spacePaddedPw : String := " Abcd1! "

/-- The initial state with the space-padded password and a confirm value
equal to its trim but not to the raw value. -/
def spacePaddedState : FormState :=
  { initialFormState with passwordV := spacePaddedPw, confirmPasswordV := "Abcd1!" }

/-- All seven field elements present. -/
def allPresentInputs : OInputs :=
  { fullNameEl := some "John Doe", emailEl := some "john@example.com",
    passwordEl := some "Abcdef1!", confirmPasswordEl := some "Abcdef1!",
    ageEl := some "25", phoneEl := some "", termsEl := some true }

/-- All field elements present except fullName. -/
def noFullNameInputs : OInputs :=
  { allPresentInputs with fullNameEl := none }

/-- Both form-level elements present. -/
def presentCtx : DomCtx := { formEl := some (), formSuccessEl := some () }

/-- A sample field cell with both elements present. -/
def sampleCell : OCell := { el := some Visual.neutral, err := some "" }

/-!
Shared helper lemmas.
-/

/-- resetForm rebuilds the initial component state whatever the current
state is: every value emptied, every display cleared, visibility
restored. -/
theorem resetForm_const (s : FormState) : s.resetForm = initialFormState := rfl

/-!
Claim C1.  The claim quantifies over field values only: for all
valid-shaped values, validateAllFields() must return true and leave all
seven error slots empty.  The return value is true, but because the
field-level showSuccess of lines 576-588 is shadowed by the form-level
showSuccess of lines 612-624, a field found valid never has its error
slot written, so a leftover message survives the call.
-/

/-- C1: at the failing input staleValidState (all seven values
valid-shaped, a leftover message in the fullName slot)
validateAllFields() returns true as claimed, but afterwards the fullName
error slot still holds the leftover message instead of the empty string. -/
theorem c1_validate_all_stale_message_bug :
    (staleValidState.validateAllFields).1 = true ∧
    ((staleValidState.validateAllFields).2.dispOf FieldName.fullName).msg =
      "Full name is required" := by decide

/-!
Claim C2.  All seven validators do run in order with no short-circuit,
and the returned boolean is the conjunction of the seven outcomes, but
the error slot of a field found valid (other than the clearError paths
of phone-empty and terms) is not written, again because of the shadowed
showSuccess.
-/

/-- C2: at the failing input staleMixedState the call returns the
conjunction false and fields after the failing fullName were still
evaluated (the phone slot receives its own message), but the valid email
field's slot keeps its stale content instead of being written. -/
theorem c2_error_slot_not_written_bug :
    (staleMixedState.validateAllFields).1 = false ∧
    ((staleMixedState.validateAllFields).2.dispOf FieldName.email).msg = "stale" ∧
    (staleMixedState.validateAllFields).2.dispOf FieldName.phone =
      ⟨Visual.error, "Phone number must have at least 10 digits"⟩ ∧
    (staleMixedState.validateAllFields).2.dispOf FieldName.fullName =
      ⟨Visual.error, "Full name must be at least 2 characters"⟩ := by decide

/-!
Claim C3.  A Valid outcome on the showSuccess path does not set the
field's success state or empty its message, and it does change the
form/success view visibility: the per-field validator calls the
form-level showSuccess because the field-level one is shadowed.
-/

/-- C3: at the failing input fullNameOnlyState, validateFullName returns
true but leaves the fullName display unchanged (no success state) while
flipping the success-view and form-view visibility, contradicting the
claimed frame. -/
theorem c3_show_success_shadowing_bug :
    (fullNameOnlyState.validateFullName).1 = true ∧
    (fullNameOnlyState.validateFullName).2.fullNameD = fullNameOnlyState.fullNameD ∧
    (fullNameOnlyState.validateFullName).2.fullNameD.vis ≠ Visual.success ∧
    fullNameOnlyState.successVisible = false ∧
    (fullNameOnlyState.validateFullName).2.successVisible = true ∧
    (fullNameOnlyState.validateFullName).2.formVisible = false := by decide

/-!
Claim C4: the ordered sub-rules of validatePassword.
-/

/-- C4: validatePassword applies its sub-rules in the order required,
length at least 8, uppercase, lowercase, digit, special character;
whenever a sub-rule fails it reports exactly that first failing
sub-rule's message (with no assumption on the later sub-rules), it
returns true iff no sub-rule is violated, and the password "a" yields
the length message although the uppercase sub-rule is also violated. -/
theorem c4_password_first_failure (s : FormState) :
    ((s.validatePassword).1 = true ↔
      (s.passwordV ≠ "" ∧ 8 ≤ s.passwordV.length ∧ hasUpperCase s.passwordV = true ∧
       hasLowerCase s.passwordV = true ∧ hasNumbers s.passwordV = true ∧
       hasSpecialChar s.passwordV = true))
  ∧ (s.passwordV = "" →
      (s.validatePassword).2.dispOf FieldName.password = ⟨Visual.error, "Password is required"⟩)
  ∧ (s.passwordV ≠ "" → s.passwordV.length < 8 →
      (s.validatePassword).2.dispOf FieldName.password =
        ⟨Visual.error, "Password must be at least 8 characters long"⟩)
  ∧ (s.passwordV ≠ "" → 8 ≤ s.passwordV.length → hasUpperCase s.passwordV = false →
      (s.validatePassword).2.dispOf FieldName.password =
        ⟨Visual.error, "Password must contain at least one uppercase letter"⟩)
  ∧ (s.passwordV ≠ "" → 8 ≤ s.passwordV.length → hasUpperCase s.passwordV = true →
      hasLowerCase s.passwordV = false →
      (s.validatePassword).2.dispOf FieldName.password =
        ⟨Visual.error, "Password must contain at least one lowercase letter"⟩)
  ∧ (s.passwordV ≠ "" → 8 ≤ s.passwordV.length → hasUpperCase s.passwordV = true →
      hasLowerCase s.passwordV = true → hasNumbers s.passwordV = false →
      (s.validatePassword).2.dispOf FieldName.password =
        ⟨Visual.error, "Password must contain at least one number"⟩)
  ∧ (s.passwordV ≠ "" → 8 ≤ s.passwordV.length → hasUpperCase s.passwordV = true →
      hasLowerCase s.passwordV = true → hasNumbers s.passwordV = true →
      hasSpecialChar s.passwordV = false →
      (s.validatePassword).2.dispOf FieldName.password =
        ⟨Visual.error, "Password must contain at least one special character"⟩)
  ∧ ((withPassword "a").validatePassword).2.dispOf FieldName.password =
      ⟨Visual.error, "Password must be at least 8 characters long"⟩
  ∧ hasUpperCase "a" = false := by
  refine ⟨?_, ?_, ?_, ?_, ?_, ?_, ?_, by decide, by decide⟩
  · simp only [FormState.validatePassword]
    split_ifs with h1 h2 h3 h4 h5 h6 <;>
      simp_all [FormState.showSuccess]
  · intro h1
    simp only [FormState.validatePassword]
    rw [if_pos h1]
    simp [FormState.showError, FormState.setDisp, FormState.dispOf]
  · intro h1 h2
    simp only [FormState.validatePassword]
    rw [if_neg h1, if_pos h2]
    simp [FormState.showError, FormState.setDisp, FormState.dispOf]
  · intro h1 h2 h3
    simp only [FormState.validatePassword]
    rw [if_neg h1, if_neg (by omega), if_pos h3]
    simp [FormState.showError, FormState.setDisp, FormState.dispOf]
  · intro h1 h2 h3 h4
    simp only [FormState.validatePassword]
    rw [if_neg h1, if_neg (by omega), if_neg (by simp [h3]), if_pos h4]
    simp [FormState.showError, FormState.setDisp, FormState.dispOf]
  · intro h1 h2 h3 h4 h5
    simp only [FormState.validatePassword]
    rw [if_neg h1, if_neg (by omega), if_neg (by simp [h3]), if_neg (by simp [h4]), if_pos h5]
    simp [FormState.showError, FormState.setDisp, FormState.dispOf]
  · intro h1 h2 h3 h4 h5 h6
    simp only [FormState.validatePassword]
    rw [if_neg h1, if_neg (by omega), if_neg (by simp [h3]), if_neg (by simp [h4]),
      if_neg (by simp [h5]), if_pos h6]
    simp [FormState.showError, FormState.setDisp, FormState.dispOf]

/-- Witness for C4 at the concrete password "a": the required hypotheses
hold and the reported message is the length message. -/
theorem c4_password_first_failure_witness :
    (withPassword "a").passwordV ≠ "" ∧ (withPassword "a").passwordV.length < 8 ∧
    ((withPassword "a").validatePassword).2.dispOf FieldName.password =
      ⟨Visual.error, "Password must be at least 8 characters long"⟩ :=
  ⟨by decide, by decide,
    (c4_password_first_failure (withPassword "a")).2.2.1 (by decide) (by decide)⟩

/-!
Claim C5: the validateAge rule and its boundaries.
-/

/-- C5: validateAge returns false when the raw age text is empty, false
when the value does not parse as an integer, false when the parsed value
lies below 13 or above 120, and true otherwise; the ages 13 and 120 are
valid while 12 and 121 are invalid. -/
theorem c5_age_rule (s : FormState) :
    (s.ageV = "" → (s.validateAge).1 = false)
  ∧ (jsParseInt s.ageV = none → (s.validateAge).1 = false)
  ∧ (∀ v : Int, jsParseInt s.ageV = some v → (v < 13 ∨ 120 < v) → (s.validateAge).1 = false)
  ∧ (s.ageV ≠ "" → ∀ v : Int, jsParseInt s.ageV = some v → 13 ≤ v → v ≤ 120 →
      (s.validateAge).1 = true)
  ∧ ((withAge "13").validateAge).1 = true
  ∧ ((withAge "120").validateAge).1 = true
  ∧ ((withAge "12").validateAge).1 = false
  ∧ ((withAge "121").validateAge).1 = false := by
  refine ⟨?_, ?_, ?_, ?_, by decide, by decide, by decide, by decide⟩
  · intro h
    simp [FormState.validateAge, h]
  · intro h
    by_cases he : s.ageV = ""
    · simp [FormState.validateAge, he]
    · simp [FormState.validateAge, he, h]
  · intro v hv hrange
    by_cases he : s.ageV = ""
    · simp [FormState.validateAge, he]
    · rcases hrange with h13 | h120
      · simp [FormState.validateAge, he, hv, h13]
      · have n13 : ¬ v < 13 := by omega
        simp [FormState.validateAge, he, hv, n13, h120]
  · intro he v hv h13 h120
    have n13 : ¬ v < 13 := by omega
    have n120 : ¬ 120 < v := by omega
    simp [FormState.validateAge, he, hv, n13, n120, FormState.showSuccess]

/-- Witness for C5 at the empty age value. -/
theorem c5_age_rule_witness : ((withAge "").validateAge).1 = false :=
  (c5_age_rule (withAge "")).1 rfl

/-!
Claim C6.  The first two cases of the claim hold, but the claimed
"returns true exactly when the two strings are equal character for
character" fails when both strings are empty: they are equal, yet the
required check fires first and the call returns false.
-/

/-- C6 counterexample: with both password and confirmPassword empty the
two strings are equal character for character, yet
validateConfirmPassword returns false (the required message), so the
claimed equivalence between a true outcome and string equality is
violated. -/
theorem c6_counterexample_empty_equal :
    ¬(((initialFormState.validateConfirmPassword).1 = true) ↔
      initialFormState.confirmPasswordV = initialFormState.passwordV) := by decide

/-- C6 (amended): validateConfirmPassword returns false with the
required message when confirmPassword is empty, false with the mismatch
message when it is nonempty and differs from the current password value,
and true exactly when confirmPassword is nonempty and the two strings
are equal character for character; with password Abcdef1! and
confirmPassword Abcdef1 the outcome is the mismatch message while
validatePassword accepts Abcdef1!. -/
theorem c6_confirm_password_rule (s : FormState) :
    (s.confirmPasswordV = "" →
      (s.validateConfirmPassword).1 = false ∧
      (s.validateConfirmPassword).2.dispOf FieldName.confirmPassword =
        ⟨Visual.error, "Please confirm your password"⟩)
  ∧ (s.confirmPasswordV ≠ "" → s.confirmPasswordV ≠ s.passwordV →
      (s.validateConfirmPassword).1 = false ∧
      (s.validateConfirmPassword).2.dispOf FieldName.confirmPassword =
        ⟨Visual.error, "Passwords do not match"⟩)
  ∧ ((s.validateConfirmPassword).1 = true ↔
      (s.confirmPasswordV ≠ "" ∧ s.confirmPasswordV = s.passwordV))
  ∧ (mismatchState.validateConfirmPassword).1 = false
  ∧ (mismatchState.validateConfirmPassword).2.dispOf FieldName.confirmPassword =
      ⟨Visual.error, "Passwords do not match"⟩
  ∧ (mismatchState.validatePassword).1 = true := by
  refine ⟨?_, ?_, ?_, by decide, by decide, by decide⟩
  · intro h
    simp only [FormState.validateConfirmPassword]
    rw [if_pos h]
    simp [FormState.showError, FormState.setDisp, FormState.dispOf]
  · intro h1 h2
    simp only [FormState.validateConfirmPassword]
    rw [if_neg h1, if_pos h2]
    simp [FormState.showError, FormState.setDisp, FormState.dispOf]
  · simp only [FormState.validateConfirmPassword]
    split_ifs with h1 h2 <;> simp_all [FormState.showSuccess]

/-- Witness for C6 at the concrete mismatching pair of the claim. -/
theorem c6_confirm_password_rule_witness :
    (mismatchState.validateConfirmPassword).1 = false ∧
    (mismatchState.validateConfirmPassword).2.dispOf FieldName.confirmPassword =
      ⟨Visual.error, "Passwords do not match"⟩ :=
  (c6_confirm_password_rule mismatchState).2.1 (by decide) (by decide)

/-!
Claim C7.  The claim says the empty phone value is valid and any
nonempty value must have 10 to 15 digits after stripping; the code
trims the value first, so a nonempty all-whitespace value (zero digits)
is also accepted.
-/

/-- C7 counterexample: the phone value consisting of one space is
nonempty and has zero digits after stripping non-digits, yet
validatePhone returns true, contradicting the claimed rule for nonempty
values. -/
theorem c7_counterexample_whitespace_phone :
    ((withPhone " ").validatePhone).1 = true ∧ (withPhone " ").phoneV ≠ "" ∧
    ((withPhone " ").phoneV.data.filter Char.isDigit).length < 10 := by decide

/-- C7 (amended): validatePhone returns true when the phone value is
empty after trimming whitespace; otherwise it strips every non-digit
character from the trimmed value and returns true iff the remaining
digit count is at least 10 and at most 15; ten digits are valid and nine
are invalid. -/
theorem c7_phone_rule (s : FormState) :
    ((s.validatePhone).1 =
      (decide (jsTrim s.phoneV = "") ||
        (decide (10 ≤ ((jsTrim s.phoneV).data.filter Char.isDigit).length) &&
         decide (((jsTrim s.phoneV).data.filter Char.isDigit).length ≤ 15))))
  ∧ ((withPhone "1234567890").validatePhone).1 = true
  ∧ ((withPhone "123456789").validatePhone).1 = false := by
  refine ⟨?_, by decide, by decide⟩
  simp only [FormState.validatePhone]
  split_ifs with h1 h2 h3
  · simp [h1]
  · have n10 : ¬ 10 ≤ ((jsTrim s.phoneV).data.filter Char.isDigit).length := by omega
    simp [h1, n10]
  · have y10 : 10 ≤ ((jsTrim s.phoneV).data.filter Char.isDigit).length := by omega
    have n15 : ¬ ((jsTrim s.phoneV).data.filter Char.isDigit).length ≤ 15 := by omega
    simp [h1, y10, n15]
  · have y10 : 10 ≤ ((jsTrim s.phoneV).data.filter Char.isDigit).length := by omega
    have y15 : ((jsTrim s.phoneV).data.filter Char.isDigit).length ≤ 15 := by omega
    simp [h1, y10, y15, FormState.showSuccess]

/-!
Claim C8.  showError and clearError do tolerate missing elements (every
dereference is null-guarded), and every validator tolerates a missing
error-display element; but each per-field validator reads the field
element's value (or checked) property without a guard, so it faults with
a TypeError when the field element itself is missing.
-/

/-- C8 counterexample: with the fullName input element missing (all
other elements present), validateFullName faults with a TypeError
instead of completing, refuting the claim that every per-field validate
operation no-ops when its target element is absent. -/
theorem c8_counterexample_null_field :
    validateFieldO FieldName.fullName noFullNameInputs presentCtx sampleCell =
      Except.error "TypeError" := rfl

/-- C8 (amended): showError and clearError always complete without a
fault, whatever elements are missing; with the form-level elements
present, a per-field validate operation completes without a fault
exactly when the field elements it dereferences are present (its own
input element, plus the password element for confirmPassword), in
particular it tolerates a missing error-display element; when a needed
field element is missing it faults. -/
theorem c8_null_tolerance (n : FieldName) (i : OInputs) (d : DomCtx) (c : OCell) (m : String) :
    exceptIsOk (showErrorO m c) = true
  ∧ exceptIsOk (clearErrorO c) = true
  ∧ (d.formEl.isSome = true → d.formSuccessEl.isSome = true → fieldElPresent n i = true →
      exceptIsOk (validateFieldO n i d c) = true)
  ∧ (fieldElPresent n i = false → exceptIsOk (validateFieldO n i d c) = false) := by
  refine ⟨rfl, rfl, ?_, ?_⟩
  · intro hf hs hp
    obtain ⟨u1, hu1⟩ := Option.isSome_iff_exists.mp hf
    obtain ⟨u2, hu2⟩ := Option.isSome_iff_exists.mp hs
    have hshow : showSuccessO d = Except.ok () := by
      cases u1; cases u2; simp [showSuccessO, hu1, hu2]
    cases n <;> simp only [fieldElPresent] at hp
    · obtain ⟨raw, hraw⟩ := Option.isSome_iff_exists.mp hp
      simp only [validateFieldO, validateFullNameO, hraw]
      split_ifs <;> simp [showErrorO, hshow, exceptIsOk, Except.map]
    · obtain ⟨raw, hraw⟩ := Option.isSome_iff_exists.mp hp
      simp only [validateFieldO, validateEmailO, hraw]
      split_ifs <;> simp [showErrorO, hshow, exceptIsOk, Except.map]
    · obtain ⟨raw, hraw⟩ := Option.isSome_iff_exists.mp hp
      simp only [validateFieldO, validatePasswordO, hraw]
      split_ifs <;> simp [showErrorO, hshow, exceptIsOk, Except.map]
    · rw [Bool.and_eq_true] at hp
      obtain ⟨raw, hraw⟩ := Option.isSome_iff_exists.mp hp.1
      obtain ⟨pw, hpw⟩ := Option.isSome_iff_exists.mp hp.2
      simp only [validateFieldO, validateConfirmPasswordO, hraw, hpw]
      split_ifs <;> simp [showErrorO, hshow, exceptIsOk, Except.map]
    · obtain ⟨raw, hraw⟩ := Option.isSome_iff_exists.mp hp
      simp only [validateFieldO, validateAgeO, hraw]
      split_ifs with h1
      · simp [showErrorO, exceptIsOk, Except.map]
      · cases hpi : jsParseInt raw
        · simp [showErrorO, exceptIsOk, Except.map]
        · simp only []
          split_ifs <;> simp [showErrorO, hshow, exceptIsOk, Except.map]
    · obtain ⟨raw, hraw⟩ := Option.isSome_iff_exists.mp hp
      simp only [validateFieldO, validatePhoneO, hraw]
      split_ifs <;> simp [showErrorO, clearErrorO, hshow, exceptIsOk, Except.map]
    · obtain ⟨b, hb⟩ := Option.isSome_iff_exists.mp hp
      simp only [validateFieldO, validateTermsO, hb]
      split_ifs <;> simp [showErrorO, clearErrorO, exceptIsOk, Except.map]
  · intro hp
    cases n <;> simp only [fieldElPresent] at hp
    · cases hfe : i.fullNameEl
      · simp [validateFieldO, validateFullNameO, hfe, exceptIsOk]
      · rw [hfe] at hp; simp at hp
    · cases hfe : i.emailEl
      · simp [validateFieldO, validateEmailO, hfe, exceptIsOk]
      · rw [hfe] at hp; simp at hp
    · cases hfe : i.passwordEl
      · simp [validateFieldO, validatePasswordO, hfe, exceptIsOk]
      · rw [hfe] at hp; simp at hp
    · cases hfe : i.confirmPasswordEl
      · simp [validateFieldO, validateConfirmPasswordO, hfe, exceptIsOk]
      · cases hpe : i.passwordEl
        · simp [validateFieldO, validateConfirmPasswordO, hfe, hpe, exceptIsOk]
        · rw [hfe, hpe] at hp; simp at hp
    · cases hfe : i.ageEl
      · simp [validateFieldO, validateAgeO, hfe, exceptIsOk]
      · rw [hfe] at hp; simp at hp
    · cases hfe : i.phoneEl
      · simp [validateFieldO, validatePhoneO, hfe, exceptIsOk]
      · rw [hfe] at hp; simp at hp
    · cases hfe : i.termsEl
      · simp [validateFieldO, validateTermsO, hfe, exceptIsOk]
      · rw [hfe] at hp; simp at hp

/-- Witness for C8: with every element present the email validator
completes without a fault. -/
theorem c8_null_tolerance_witness :
    exceptIsOk (validateFieldO FieldName.email allPresentInputs presentCtx sampleCell) = true :=
  (c8_null_tolerance FieldName.email allPresentInputs presentCtx sampleCell "x").2.2.1
    rfl rfl rfl

/-!
Claim C9: the auto-reset after a successful submit restores the initial
state.  resetForm itself is not shadowed, so this round-trip holds even
though the success view was already shown by the shadowed calls.
-/

/-- C9: when validateAllFields returns true, handleSubmit shows the
success view and hides the form, and the scheduled resetForm then
returns the component to the initial state: every field display
Unvalidated with the empty message, every value empty, the form view
shown and the success view hidden. -/
theorem c9_submit_reset_roundtrip (s : FormState)
    (h : (s.validateAllFields).1 = true) :
    (s.handleSubmit).formVisible = false ∧ (s.handleSubmit).successVisible = true ∧
    (s.handleSubmit).resetForm = initialFormState ∧
    (∀ n : FieldName, initialFormState.dispOf n = ⟨Visual.neutral, ""⟩) ∧
    initialFormState.fullNameV = "" ∧ initialFormState.emailV = "" ∧
    initialFormState.passwordV = "" ∧ initialFormState.confirmPasswordV = "" ∧
    initialFormState.ageV = "" ∧ initialFormState.phoneV = "" ∧
    initialFormState.termsV = false ∧
    initialFormState.formVisible = true ∧ initialFormState.successVisible = false := by
  refine ⟨?_, ?_, resetForm_const _, ?_, rfl, rfl, rfl, rfl, rfl, rfl, rfl, rfl, rfl⟩
  · simp [FormState.handleSubmit, h, FormState.showSuccess]
  · simp [FormState.handleSubmit, h, FormState.showSuccess]
  · intro n; cases n <;> rfl

/-- Witness for C9 at a concrete fully valid state. -/
theorem c9_submit_reset_roundtrip_witness :
    (validState.validateAllFields).1 = true ∧
    (validState.handleSubmit).resetForm = initialFormState :=
  ⟨by decide, (c9_submit_reset_roundtrip validState (by decide)).2.2.1⟩

/-!
Claim C10: validatePassword and validateConfirmPassword read the raw,
untrimmed values, while the fullName, email and phone rules depend only
on the trimmed value.
-/

/-- C10: the password length sub-rule counts the raw characters
including surrounding whitespace, confirmPassword must reproduce the
password character for character, and the fullName, email and phone
validators give the same outcome and field display on any two values
with the same trim; the eight-character space-padded password is
accepted although its trim has fewer than eight characters, and a
confirm value equal to the password's trim but not to the raw password
is rejected as a mismatch. -/
theorem c10_raw_password_trimmed_others (s : FormState) (v w : String) :
    (s.passwordV ≠ "" → s.passwordV.length < 8 →
      (s.validatePassword).1 = false ∧
      (s.validatePassword).2.dispOf FieldName.password =
        ⟨Visual.error, "Password must be at least 8 characters long"⟩)
  ∧ (s.confirmPasswordV ≠ "" →
      ((s.validateConfirmPassword).1 = true ↔ s.confirmPasswordV = s.passwordV))
  ∧ (jsTrim v = jsTrim w →
      (({ s with fullNameV := v }).validateFullName).1 =
        (({ s with fullNameV := w }).validateFullName).1 ∧
      (({ s with fullNameV := v }).validateFullName).2.dispOf FieldName.fullName =
        (({ s with fullNameV := w }).validateFullName).2.dispOf FieldName.fullName ∧
      (({ s with emailV := v }).validateEmail).1 =
        (({ s with emailV := w }).validateEmail).1 ∧
      (({ s with emailV := v }).validateEmail).2.dispOf FieldName.email =
        (({ s with emailV := w }).validateEmail).2.dispOf FieldName.email ∧
      (({ s with phoneV := v }).validatePhone).1 =
        (({ s with phoneV := w }).validatePhone).1 ∧
      (({ s with phoneV := v }).validatePhone).2.dispOf FieldName.phone =
        (({ s with phoneV := w }).validatePhone).2.dispOf FieldName.phone)
  ∧ (spacePaddedState.validatePassword).1 = true
  ∧ (jsTrim spacePaddedPw).length < 8
  ∧ ((withPassword (jsTrim spacePaddedPw)).validatePassword).1 = false
  ∧ (spacePaddedState.validateConfirmPassword).1 = false
  ∧ (spacePaddedState.validateConfirmPassword).2.dispOf FieldName.confirmPassword =
      ⟨Visual.error, "Passwords do not match"⟩
  ∧ jsTrim spacePaddedState.confirmPasswordV = jsTrim spacePaddedState.passwordV := by
  refine ⟨?_, ?_, ?_, by decide, by decide, by decide, by decide, by decide, by decide⟩
  · intro h1 h2
    simp only [FormState.validatePassword]
    rw [if_neg h1, if_pos h2]
    simp [FormState.showError, FormState.setDisp, FormState.dispOf]
  · intro h1
    simp only [FormState.validateConfirmPassword]
    rw [if_neg h1]
    split_ifs with h2 <;> simp_all [FormState.showSuccess]
  · intro h
    refine ⟨?_, ?_, ?_, ?_, ?_, ?_⟩ <;>
      simp only [FormState.validateFullName, FormState.validateEmail,
        FormState.validatePhone] <;>
      rw [h] <;>
      split_ifs <;>
      simp [FormState.showError, FormState.setDisp, FormState.dispOf,
        FormState.showSuccess, FormState.clearError]

/-- Witness for C10: two fullName values with the same trim give the
same validateFullName outcome. -/
theorem c10_raw_password_trimmed_others_witness :
    (({ initialFormState with fullNameV := " John " }).validateFullName).1 =
      (({ initialFormState with fullNameV := "John" }).validateFullName).1 :=
  ((c10_raw_password_trimmed_others initialFormState " John " "John").2.2.1 (by decide)).1
